import Mathlib

/-
  Verification development for `bnn_for_14C_calibration/manage_cache.py`.

  The module is shallow-embedded as pure Lean functions that return the
  sequence of externally visible actions (HTTP requests, directory
  creations, file writes, gdown invocations, sleeps, printed messages)
  together with an optional uncaught exception.  Network and local-state
  inputs (HTTP responses, the contents of each directory's
  `drive_map.json`, gdown success) are supplied by an `Env` record, and
  the recursion of `_download_folder` is bounded by an explicit fuel
  parameter (fuel exhaustion is reported as a distinguished outcome that
  never occurs at sufficient fuel).
-/

namespace BnnCache

/-- A local filesystem path, as its list of components. -/
abbrev LocalPath := List String

-- ======================================================================
-- String helpers modelling the Python string operations used in the file
-- ======================================================================

/-- Python's substring test `pat in s`, on character lists. -/
def listContains (pat : List Char) : List Char → Bool
  | [] => pat.isEmpty
  | x :: xs => pat.isPrefixOf (x :: xs) || listContains pat xs

/-- `is_google_drive_url` (manage_cache.py line 31): `"drive.google.com" in url`. -/
def is_google_drive_url (url : String) : Bool :=
  listContains "drive.google.com".toList url.toList

/-- If `pat` is a prefix of the list, return the remainder, else `none`. -/
def dropPat : List Char → List Char → Option (List Char)
  | [], s => some s
  | _ :: _, [] => none
  | p :: ps, c :: cs => if p = c then dropPat ps cs else none

/-- `re.search(pat ++ "([^stop]+)", s)`: scan for the first position where the
literal pattern `pat` matches and is followed by at least one character not
satisfying `stop`; return that maximal capture. -/
def searchPat (pat : List Char) (stop : Char → Bool) : List Char → Option (List Char)
  | [] => none
  | x :: xs =>
    match dropPat pat (x :: xs) with
    | some rest =>
      let capt := rest.takeWhile (fun c => ! stop c)
      if capt.isEmpty then searchPat pat stop xs else some capt
    | none => searchPat pat stop xs

/-- `re.search(r"[?&]id=([^&]+)", s)`. -/
def searchIdPat : List Char → Option (List Char)
  | [] => none
  | x :: xs =>
    if x = '?' ∨ x = '&' then
      match dropPat "id=".toList xs with
      | some rest =>
        let capt := rest.takeWhile (fun c => c != '&')
        if capt.isEmpty then searchIdPat xs else some capt
      | none => searchIdPat xs
    else searchIdPat xs

/-- `extract_drive_file_id` (manage_cache.py line 48): first try
`/file/d/([^/]+)`, then `[?&]id=([^&]+)`, else `None`. -/
def extract_drive_file_id (url : String) : Option String :=
  match searchPat "/file/d/".toList (fun c => c == '/') url.toList with
  | some capt => some (String.mk capt)
  | none =>
    match searchIdPat url.toList with
    | some capt => some (String.mk capt)
    | none => none

/-- Python's `s.split(c)` for a one-character separator (keeps empty pieces). -/
def splitChar (c : Char) : List Char → List (List Char)
  | [] => [[]]
  | x :: xs =>
    if x = c then [] :: splitChar c xs
    else
      match splitChar c xs with
      | [] => [[x]]
      | y :: ys => (x :: y) :: ys

/-- Python's `s.split('/')` and friends, on `String`. -/
def pySplit (s : String) (c : Char) : List String :=
  (splitChar c s.toList).map (fun cs => String.mk cs)

-- ======================================================================
-- Data model: effects, responses, remote entries, environment
-- ======================================================================

/-- The distinct messages printed by the module (payloads kept, exact
formatting of the f-strings abstracted). -/
inductive PrintTag where
  | skipNoUrl (name : String)
  | downloadingFile (url : String) (p : LocalPath)
  | driveFolderMsg (url : String) (p : LocalPath)
  | driveFileMsg (fileId : String) (p : LocalPath)
  | driveError
  | overwriteNotice
  | removingCacheMsg
  | cacheRemovedMsg
  | noExistingCacheMsg
  | creatingCacheMsg
  | cacheFilledMsg
  | existingCacheMsg
  deriving DecidableEq, Repr

/-- One externally visible action of the module, in execution order.
`getListing`, `getRepoInfo` and `getFile` are the three `requests.get`
call sites (directory listing, repository metadata, file download);
`gdownFile`/`gdownFolder` are the two gdown call sites; `mkdirP` is
`mkdir(parents=True, exist_ok=True)` (creates every directory on the
path, never fails on existing ones); `mkdirNoParents` is
`mkdir(exist_ok=True)`; `write` is `Path.write_bytes`. -/
inductive Effect where
  | getListing (url : String)
  | getRepoInfo (url : String)
  | getFile (url : String)
  | gdownFile (fileId : String) (out : LocalPath)
  | gdownFolder (url : String) (out : LocalPath)
  | mkdirP (p : LocalPath)
  | mkdirNoParents (p : LocalPath)
  | rmTree (p : LocalPath)
  | write (p : LocalPath) (content : String)
  | sleep
  | printMsg (tag : PrintTag)
  deriving DecidableEq, Repr

abbrev Trace := List Effect

/-- An uncaught Python exception terminating the run. -/
inductive Err where
  | http (status : Nat)
  | transportExc
  | indexErr
  | outOfFuel
  deriving DecidableEq, Repr

/-- Outcome of one HTTP request: a 2xx body, a non-2xx status (on which
`raise_for_status` raises), or a transport-level exception. -/
inductive Resp (α : Type) where
  | ok (val : α)
  | httpErr (status : Nat)
  | exc
  deriving DecidableEq

/-- One JSON entry of a GitHub contents-API listing, with the fields the
code reads: `name`, `type`, `download_url` (may be absent), `url`. -/
structure Item where
  name : String
  type : String
  download_url : Option String
  url : String
  deriving DecidableEq, Repr

/-- The external world: responses of the three HTTP endpoints, the parsed
content of each directory's local `drive_map.json` (empty list when the
file is absent), whether each gdown call succeeds, and the user's home
directory. -/
structure Env where
  listing : String → Resp (List Item)
  metadata : String → Resp (Option String)
  fetch : String → Resp String
  driveMapAt : LocalPath → List (String × String)
  gdownFileOk : String → Bool
  gdownFolderOk : String → Bool
  home : LocalPath

-- ======================================================================
-- The functions of manage_cache.py
-- ======================================================================

/-- `download_from_google_drive` (manage_cache.py line 74): create parent
directories, then either `gdown.download_folder` (URL contains
`drive.google.com/drive/folders`) or `gdown.download` on the extracted id
(falling back to the raw argument when extraction yields a falsy value);
any exception is caught and printed; always sleeps afterwards. -/
def download_from_google_drive (env : Env) (url_or_id : String) (output_path : LocalPath) :
    Trace :=
  [Effect.mkdirP output_path.dropLast] ++
  (if listContains "drive.google.com/drive/folders".toList url_or_id.toList then
    [Effect.printMsg (PrintTag.driveFolderMsg url_or_id output_path),
     Effect.gdownFolder url_or_id output_path] ++
    (if env.gdownFolderOk url_or_id then [] else [Effect.printMsg PrintTag.driveError])
  else
    let fileId :=
      match extract_drive_file_id url_or_id with
      | none => url_or_id
      | some s => if s = "" then url_or_id else s
    [Effect.printMsg (PrintTag.driveFileMsg fileId output_path),
     Effect.gdownFile fileId output_path] ++
    (if env.gdownFileOk fileId then [] else [Effect.printMsg PrintTag.driveError])) ++
  [Effect.sleep]

/-- URL of the repository-metadata request made by `get_default_branch`. -/
def repoInfoUrl (owner repo : String) : String :=
  "https://api.github.com/repos/" ++ owner ++ "/" ++ repo

/-- `get_default_branch` (manage_cache.py line 149): one `requests.get` of
the repo-info URL, `raise_for_status`, then `json().get("default_branch",
"main")`. -/
def get_default_branch (env : Env) (owner repo : String) : Trace × Resp String :=
  ([Effect.getRepoInfo (repoInfoUrl owner repo)],
   match env.metadata (repoInfoUrl owner repo) with
   | Resp.ok j => Resp.ok (j.getD "main")
   | Resp.httpErr s => Resp.httpErr s
   | Resp.exc => Resp.exc)

/-- The part of `_download_folder`'s loop body (manage_cache.py lines
199-215) after the drive_map check: the `type == "file"` branch (skip on
missing/falsy `download_url`; else print, create parent directories,
fetch — `raise_for_status` propagating any failure — write the bytes and
sleep) and the `type == "dir"` branch (recurse, represented by `dlRec`). -/
def processItemGithub (env : Env) (dlRec : String → LocalPath → Trace × Option Err)
    (local_dir : LocalPath) (item : Item) : Trace × Option Err :=
  let local_path := local_dir ++ [item.name]
  if item.type = "file" then
    match item.download_url with
    | none => ([Effect.printMsg (PrintTag.skipNoUrl item.name)], none)
    | some file_url =>
      if file_url = "" then ([Effect.printMsg (PrintTag.skipNoUrl item.name)], none)
      else
        let t := [Effect.printMsg (PrintTag.downloadingFile file_url local_path),
                  Effect.mkdirP local_path.dropLast,
                  Effect.getFile file_url]
        match env.fetch file_url with
        | Resp.httpErr s => (t, some (Err.http s))
        | Resp.exc => (t, some Err.transportExc)
        | Resp.ok content => (t ++ [Effect.write local_path content, Effect.sleep], none)
  else if item.type = "dir" then
    dlRec item.url (local_dir ++ [item.name])
  else ([], none)

/-- One iteration of `_download_folder`'s `for item in items` loop
(manage_cache.py lines 190-215): if the entry's name is in the directory's
drive map with a Google Drive URL, download from Drive and `continue`;
otherwise fall through to the GitHub file/dir dispatch. -/
def processItem (env : Env) (dlRec : String → LocalPath → Trace × Option Err)
    (drive_map : List (String × String)) (local_dir : LocalPath) (item : Item) :
    Trace × Option Err :=
  match drive_map.lookup item.name with
  | some override_url =>
    if is_google_drive_url override_url then
      (download_from_google_drive env override_url (local_dir ++ [item.name]), none)
    else processItemGithub env dlRec local_dir item
  | none => processItemGithub env dlRec local_dir item

/-- The whole `for item in items` loop: iterations run in order; an
uncaught exception in one iteration aborts the loop (and propagates). -/
def processItems (env : Env) (dlRec : String → LocalPath → Trace × Option Err)
    (drive_map : List (String × String)) (local_dir : LocalPath) :
    List Item → Trace × Option Err
  | [] => ([], none)
  | item :: rest =>
    match processItem env dlRec drive_map local_dir item with
    | (t, some e) => (t, some e)
    | (t, none) =>
      let r := processItems env dlRec drive_map local_dir rest
      (t ++ r.1, r.2)

/-- `_download_folder` (manage_cache.py line 170): create the local
directory, load `drive_map.json` if present, list the remote directory
(`raise_for_status` propagating failures), split the API URL on `/` and
take parts 3 and 4 as owner and repo (an out-of-range index raises
IndexError), resolve the default branch (again, in every recursive call),
then process the listed items.  Recursion depth is bounded by `fuel`. -/
def download_folder (env : Env) : Nat → String → LocalPath → Trace × Option Err
  | 0, _, _ => ([], some Err.outOfFuel)
  | fuel + 1, api_url, local_dir =>
    let t1 : Trace := [Effect.mkdirP local_dir, Effect.getListing api_url]
    let drive_map := env.driveMapAt local_dir
    match env.listing api_url with
    | Resp.httpErr s => (t1, some (Err.http s))
    | Resp.exc => (t1, some Err.transportExc)
    | Resp.ok items =>
      let parts := pySplit api_url '/'
      match parts.get? 3, parts.get? 4 with
      | some owner, some repo =>
        let tb := (get_default_branch env owner repo).1
        match (get_default_branch env owner repo).2 with
        | Resp.ok _default_branch =>
          let r := processItems env (download_folder env fuel) drive_map local_dir items
          (t1 ++ tb ++ r.1, r.2)
        | Resp.httpErr s => (t1 ++ tb, some (Err.http s))
        | Resp.exc => (t1 ++ tb, some Err.transportExc)
      | _, _ => (t1, some Err.indexErr)

/-- `download_github_with_drive_map` (manage_cache.py line 107): runs the
recursive `_download_folder` on the root API URL and local directory. -/
def download_github_with_drive_map (env : Env) (fuel : Nat) (api_url : String)
    (local_dir : LocalPath) : Trace × Option Err :=
  download_folder env fuel api_url local_dir

-- ======================================================================
-- Cache lifecycle wrapper (manage_cache.py lines 18-24 and 223-258)
-- ======================================================================

def CACHE_DIR_NAME : String := ".bnn_for_14C_calibration"

/-- `CACHE_DIR = Path.home() / CACHE_DIR_NAME`. -/
def CACHE_DIR (env : Env) : LocalPath := env.home ++ [CACHE_DIR_NAME]

def MODELS_DIR_API_URL : String :=
  "https://api.github.com/repos/dest-ash/bnn_for_14C_calibration/contents/models"

/-- `MODELS_DIR_LOCAL = CACHE_DIR / "models"`. -/
def MODELS_DIR_LOCAL (env : Env) : LocalPath := CACHE_DIR env ++ ["models"]

/-- `clear_cache` (manage_cache.py line 223). -/
def clear_cache (env : Env) (cacheExists : Bool) : Trace :=
  if cacheExists then
    [Effect.printMsg PrintTag.removingCacheMsg, Effect.rmTree (CACHE_DIR env),
     Effect.printMsg PrintTag.cacheRemovedMsg]
  else [Effect.printMsg PrintTag.noExistingCacheMsg]

/-- `download_cache_lib_data` (manage_cache.py line 236): if `overwrite`
or the cache directory does not exist (or is not a directory), optionally
clear, create the cache directories and download; otherwise only print a
notice.  `cacheExists`/`cacheIsDir` are the values of `CACHE_DIR.exists()`
and `CACHE_DIR.is_dir()` at entry. -/
def download_cache_lib_data (env : Env) (fuel : Nat)
    (cacheExists cacheIsDir overwrite : Bool) : Trace × Option Err :=
  if overwrite || !(cacheExists && cacheIsDir) then
    let t0 := if overwrite
      then Effect.printMsg PrintTag.overwriteNotice :: clear_cache env cacheExists
      else []
    let t1 := t0 ++ [Effect.printMsg PrintTag.creatingCacheMsg,
                     Effect.mkdirP (CACHE_DIR env),
                     Effect.mkdirNoParents (MODELS_DIR_LOCAL env)]
    let r := download_github_with_drive_map env fuel MODELS_DIR_API_URL (MODELS_DIR_LOCAL env)
    match r.2 with
    | some e => (t1 ++ r.1, some e)
    | none => (t1 ++ r.1 ++ [Effect.printMsg PrintTag.cacheFilledMsg], none)
  else ([Effect.printMsg PrintTag.existingCacheMsg], none)

-- ======================================================================
-- Observation helpers on traces
-- ======================================================================

/-- Is the effect the repository-metadata request? -/
def isRepoInfoGet : Effect → Bool
  | Effect.getRepoInfo _ => true
  | _ => false

/-- Number of repository-metadata requests in a trace. -/
def countRepoInfo (t : Trace) : Nat := t.countP isRepoInfoGet

/-- Is the effect a directory-listing request? -/
def isListingGet : Effect → Bool
  | Effect.getListing _ => true
  | _ => false

/-- Is the effect a file download request of the given URL? -/
def isGetFileOf (u : String) : Effect → Bool
  | Effect.getFile v => v == u
  | _ => false

/-- Is the effect a gdown (alternate service) invocation? -/
def isGdown : Effect → Bool
  | Effect.gdownFile _ _ => true
  | Effect.gdownFolder _ _ => true
  | _ => false

/-- Is the effect any request to the Primary (GitHub) backend? -/
def isPrimaryGet : Effect → Bool
  | Effect.getListing _ => true
  | Effect.getRepoInfo _ => true
  | Effect.getFile _ => true
  | _ => false

/-- Is the effect any network request at all? -/
def isNetworkEffect (e : Effect) : Bool := isPrimaryGet e || isGdown e

/-- Does the effect modify the local filesystem? -/
def mutatesDisk : Effect → Bool
  | Effect.mkdirP _ => true
  | Effect.mkdirNoParents _ => true
  | Effect.rmTree _ => true
  | Effect.write _ _ => true
  | Effect.gdownFile _ _ => true
  | Effect.gdownFolder _ _ => true
  | _ => false

/-- Is the effect an error message printed for a failed download? -/
def isDriveErrorMsg : Effect → Bool
  | Effect.printMsg PrintTag.driveError => true
  | _ => false

-- ======================================================================
-- Directory-creation discipline (claim C8)
-- ======================================================================

/-- The local path that receives file content through this effect, if any:
a direct byte write, or the output location handed to gdown. -/
def fileTarget : Effect → Option LocalPath
  | Effect.write p _ => some p
  | Effect.gdownFile _ p => some p
  | Effect.gdownFolder _ p => some p
  | _ => none

/-- Paths whose directories are known to exist after the effect: `mkdirP p`
creates `p` and every directory on the way (`parents=True, exist_ok=True`). -/
def updSeen (seen : List LocalPath) : Effect → List LocalPath
  | Effect.mkdirP p => p :: seen
  | _ => seen

/-- `SafeFrom seen tr`: every effect in `tr` that places file content at a
local path was preceded (within `tr`, or by the initial `seen` set) by a
`mkdirP` of that path's parent directory. -/
inductive SafeFrom : List LocalPath → Trace → Prop
  | nil (seen : List LocalPath) : SafeFrom seen []
  | cons {seen : List LocalPath} {e : Effect} {rest : Trace}
      (hhead : ∀ p, fileTarget e = some p → p.dropLast ∈ seen)
      (htail : SafeFrom (updSeen seen e) rest) : SafeFrom seen (e :: rest)

-- ======================================================================
-- Concrete sample data for witness and counterexample theorems
-- ======================================================================

/-- A trivial recursion stub for statements about a single loop iteration. -/
def dlRecTrivial : String → LocalPath → Trace × Option Err := fun _ _ => ([], none)

def apiGood : String := "https://api.github.com/repos/o/r/contents/models"

def subApiUrl : String := "https://api.github.com/repos/o/r/contents/models/sub"

def itemA : Item := { name := "a.txt", type := "file", download_url := some "uA", url := "la" }

def itemB : Item := { name := "b.txt", type := "file", download_url := some "uB", url := "lb" }

def itemSub : Item := { name := "sub", type := "dir", download_url := none, url := subApiUrl }

def itemBig : Item := { name := "big.bin", type := "file", download_url := some "uBig", url := "lbig" }

/-- The Git LFS pointer magic header named by the spec. -/
def lfsMagic : String := "version https://git-lfs.github.com/spec/v1"

/-- Pointer-text bytes: magic header plus an oid line. -/
def ptrContent : String := lfsMagic ++ "\noid sha256:abc"

def driveFileUrl : String := "https://drive.google.com/file/d/ABC123/view"

def driveFolderUrl : String := "https://drive.google.com/drive/folders/F99"

def plainUrl : String := "https://example.com/a.zip"

/-- A benign environment: every listing empty, every fetch succeeds. -/
def envBase : Env :=
  { listing := fun _ => Resp.ok []
    metadata := fun _ => Resp.ok (some "main")
    fetch := fun _ => Resp.ok "data"
    driveMapAt := fun _ => []
    gdownFileOk := fun _ => true
    gdownFolderOk := fun _ => true
    home := ["home"] }

/-- One file whose fetch always returns HTTP 403 (the spec's retryable status). -/
def envRetry403 : Env :=
  { envBase with
    listing := fun u => if u = apiGood then Resp.ok [itemBig] else Resp.exc
    fetch := fun _ => Resp.httpErr 403 }

/-- One file whose fetched bytes are Git LFS pointer text. -/
def envPointer : Env :=
  { envBase with
    listing := fun u => if u = apiGood then Resp.ok [itemBig] else Resp.exc
    fetch := fun u => if u = "uBig" then Resp.ok ptrContent else Resp.exc }

/-- Two files; the first one's fetch fails with a non-retryable HTTP 500. -/
def envStatus500 : Env :=
  { envBase with
    listing := fun u => if u = apiGood then Resp.ok [itemA, itemB] else Resp.exc
    fetch := fun u => if u = "uA" then Resp.httpErr 500 else Resp.ok "data" }

/-- A root directory containing one subdirectory with an empty listing. -/
def envTwoDirs : Env :=
  { envBase with
    listing := fun u =>
      if u = apiGood then Resp.ok [itemSub]
      else if u = subApiUrl then Resp.ok [] else Resp.exc }

-- ======================================================================
-- Helper lemmas
-- ======================================================================

/-- The alternate-service download path performs no Primary (GitHub) request. -/
theorem drive_countP_primary (env : Env) (u : String) (p : LocalPath) :
    (download_from_google_drive env u p).countP isPrimaryGet = 0 := by
  unfold download_from_google_drive
  cases hb : listContains "drive.google.com/drive/folders".toList u.toList <;>
    simp only [hb, if_true, if_false, Bool.false_eq_true, ite_true, ite_false]
  · cases hg : env.gdownFileOk
      (match extract_drive_file_id u with
        | none => u
        | some s => if s = "" then u else s) <;>
      simp [hg, List.countP_append, List.countP_cons, isPrimaryGet]
  · cases hg : env.gdownFolderOk u <;>
      simp [hg, List.countP_append, List.countP_cons, isPrimaryGet]

/-- The alternate-service download path performs exactly one gdown call. -/
theorem drive_countP_gdown (env : Env) (u : String) (p : LocalPath) :
    (download_from_google_drive env u p).countP isGdown = 1 := by
  unfold download_from_google_drive
  cases hb : listContains "drive.google.com/drive/folders".toList u.toList <;>
    simp only [hb, if_true, if_false, Bool.false_eq_true, ite_true, ite_false]
  · cases hg : env.gdownFileOk
      (match extract_drive_file_id u with
        | none => u
        | some s => if s = "" then u else s) <;>
      simp [hg, List.countP_append, List.countP_cons, isGdown]
  · cases hg : env.gdownFolderOk u <;>
      simp [hg, List.countP_append, List.countP_cons, isGdown]

/-- The alternate-service download path performs no directory-listing request. -/
theorem drive_countP_listing (env : Env) (u : String) (p : LocalPath) :
    (download_from_google_drive env u p).countP isListingGet = 0 := by
  unfold download_from_google_drive
  cases hb : listContains "drive.google.com/drive/folders".toList u.toList <;>
    simp only [hb, if_true, if_false, Bool.false_eq_true, ite_true, ite_false]
  · cases hg : env.gdownFileOk
      (match extract_drive_file_id u with
        | none => u
        | some s => if s = "" then u else s) <;>
      simp [hg, List.countP_append, List.countP_cons, isListingGet]
  · cases hg : env.gdownFolderOk u <;>
      simp [hg, List.countP_append, List.countP_cons, isListingGet]

/-- The alternate-service download path performs no metadata request. -/
theorem drive_countP_repoInfo (env : Env) (u : String) (p : LocalPath) :
    countRepoInfo (download_from_google_drive env u p) = 0 := by
  unfold countRepoInfo download_from_google_drive
  cases hb : listContains "drive.google.com/drive/folders".toList u.toList <;>
    simp only [hb, if_true, if_false, Bool.false_eq_true, ite_true, ite_false]
  · cases hg : env.gdownFileOk
      (match extract_drive_file_id u with
        | none => u
        | some s => if s = "" then u else s) <;>
      simp [hg, List.countP_append, List.countP_cons, isRepoInfoGet]
  · cases hg : env.gdownFolderOk u <;>
      simp [hg, List.countP_append, List.countP_cons, isRepoInfoGet]

/-- Processing a `file`-typed entry performs no metadata request. -/
theorem github_countP_repoInfo (env : Env) (dlRec : String → LocalPath → Trace × Option Err)
    (dir : LocalPath) (item : Item) (hty : item.type = "file") :
    countRepoInfo (processItemGithub env dlRec dir item).1 = 0 := by
  unfold countRepoInfo processItemGithub
  rw [hty]
  cases hdu : item.download_url with
  | none => simp [List.countP_cons, isRepoInfoGet]
  | some fu =>
    by_cases hne : fu = ""
    · simp [hne, List.countP_cons, isRepoInfoGet]
    · cases hf : env.fetch fu <;>
        simp [hne, hf, List.countP_append, List.countP_cons, isRepoInfoGet]

-- ======================================================================
-- Claim theorems
-- ======================================================================

/-- C4: for every directory entry whose name is a key of that directory's
override map and whose override URL is recognized as a Google Drive URL,
the loop iteration downloads the file via the alternate service
(`download_from_google_drive`) and succeeds, and the resulting actions
contact the Primary backend for no URL at all (no listing, metadata or
file-download request) while invoking gdown exactly once. -/
theorem c4_override_skips_primary (env : Env)
    (dlRec : String → LocalPath → Trace × Option Err)
    (dm : List (String × String)) (dir : LocalPath) (item : Item) (u : String)
    (hov : dm.lookup item.name = some u) (hdrive : is_google_drive_url u = true) :
    processItem env dlRec dm dir item =
      (download_from_google_drive env u (dir ++ [item.name]), none) ∧
    (download_from_google_drive env u (dir ++ [item.name])).countP isPrimaryGet = 0 ∧
    (download_from_google_drive env u (dir ++ [item.name])).countP isGdown = 1 := by
  refine ⟨?_, drive_countP_primary env u (dir ++ [item.name]),
    drive_countP_gdown env u (dir ++ [item.name])⟩
  unfold processItem
  rw [hov]
  simp [hdrive]

/-- Witness for C4 at a concrete input: `a.txt` is mapped to a Google
Drive file URL, so its iteration is exactly the Drive download. -/
theorem c4_override_skips_primary_witness :
    processItem envBase dlRecTrivial [("a.txt", driveFileUrl)] ["h"] itemA =
      (download_from_google_drive envBase driveFileUrl (["h"] ++ [itemA.name]), none) ∧
    (download_from_google_drive envBase driveFileUrl (["h"] ++ [itemA.name])).countP
      isPrimaryGet = 0 ∧
    (download_from_google_drive envBase driveFileUrl (["h"] ++ [itemA.name])).countP
      isGdown = 1 :=
  c4_override_skips_primary envBase dlRecTrivial [("a.txt", driveFileUrl)] ["h"] itemA
    driveFileUrl (by decide) (by decide)

/-- C7: an entry whose name appears in the override map with a URL that is
not recognized as a Google Drive URL is processed exactly as if no
override existed (equal traces and outcome), and when the entry is a
regular file with a working download URL it is downloaded from that
`download_url`; the iteration does not fail. -/
theorem c7_fallback_primary (env : Env)
    (dlRec : String → LocalPath → Trace × Option Err)
    (dm : List (String × String)) (dir : LocalPath) (item : Item) (u : String)
    (hov : dm.lookup item.name = some u) (hnd : is_google_drive_url u = false) :
    processItem env dlRec dm dir item = processItem env dlRec [] dir item ∧
    (∀ fu content, item.type = "file" → item.download_url = some fu → fu ≠ "" →
      env.fetch fu = Resp.ok content →
      processItem env dlRec dm dir item =
        ([Effect.printMsg (PrintTag.downloadingFile fu (dir ++ [item.name])),
          Effect.mkdirP (dir ++ [item.name]).dropLast,
          Effect.getFile fu,
          Effect.write (dir ++ [item.name]) content,
          Effect.sleep], none)) := by
  have hbase : processItem env dlRec dm dir item = processItemGithub env dlRec dir item := by
    unfold processItem
    rw [hov]
    simp [hnd]
  constructor
  · rw [hbase]
    unfold processItem
    simp [List.lookup]
  · intro fu content hty hdu hne hf
    rw [hbase]
    unfold processItemGithub
    rw [hty]
    simp [hdu, hne, hf]

/-- Witness for C7 at a concrete input: `a.txt` has a non-Drive override
URL and is fetched from its own `download_url` `uA`. -/
theorem c7_fallback_primary_witness :
    processItem envBase dlRecTrivial [("a.txt", plainUrl)] ["h"] itemA =
      processItem envBase dlRecTrivial [] ["h"] itemA ∧
    processItem envBase dlRecTrivial [("a.txt", plainUrl)] ["h"] itemA =
      ([Effect.printMsg (PrintTag.downloadingFile "uA" (["h"] ++ [itemA.name])),
        Effect.mkdirP ((["h"] : LocalPath) ++ [itemA.name]).dropLast,
        Effect.getFile "uA",
        Effect.write (["h"] ++ [itemA.name]) "data",
        Effect.sleep], none) := by
  have h := c7_fallback_primary envBase dlRecTrivial [("a.txt", plainUrl)] ["h"] itemA
    plainUrl (by decide) (by decide)
  exact ⟨h.1, h.2 "uA" "data" rfl rfl (by decide) rfl⟩

/-- C9: a `dir`-typed entry whose name appears in the override map with a
Google Drive URL is handed to the alternate service download (the
override check precedes the file/dir dispatch), the iteration succeeds,
and its actions make no directory-listing request (the GitHub listing API
is not used to recurse into it) while invoking gdown exactly once. -/
theorem c9_dir_override_drive (env : Env)
    (dlRec : String → LocalPath → Trace × Option Err)
    (dm : List (String × String)) (dir : LocalPath) (item : Item) (u : String)
    (hty : item.type = "dir")
    (hov : dm.lookup item.name = some u) (hdrive : is_google_drive_url u = true) :
    processItem env dlRec dm dir item =
      (download_from_google_drive env u (dir ++ [item.name]), none) ∧
    (download_from_google_drive env u (dir ++ [item.name])).countP isListingGet = 0 ∧
    (download_from_google_drive env u (dir ++ [item.name])).countP isGdown = 1 := by
  refine ⟨?_, drive_countP_listing env u (dir ++ [item.name]),
    drive_countP_gdown env u (dir ++ [item.name])⟩
  unfold processItem
  rw [hov]
  simp [hdrive]

/-- Witness for C9 at a concrete input: the directory entry `sub` is
mapped to a Google Drive folder URL and downloaded through gdown. -/
theorem c9_dir_override_drive_witness :
    processItem envBase dlRecTrivial [("sub", driveFolderUrl)] ["h"] itemSub =
      (download_from_google_drive envBase driveFolderUrl (["h"] ++ [itemSub.name]), none) ∧
    (download_from_google_drive envBase driveFolderUrl (["h"] ++ [itemSub.name])).countP
      isListingGet = 0 ∧
    (download_from_google_drive envBase driveFolderUrl (["h"] ++ [itemSub.name])).countP
      isGdown = 1 :=
  c9_dir_override_drive envBase dlRecTrivial [("sub", driveFolderUrl)] ["h"] itemSub
    driveFolderUrl rfl (by decide) (by decide)

/-- C1 (counterexample): with a single file whose fetch returns HTTP 403
on the one and only attempt, the run does not complete successfully with
a warning list — it aborts with the uncaught HTTPError — and the file was
attempted exactly once (there is no retry round and no Exhausted list). -/
theorem c1_counterexample :
    (download_folder envRetry403 1 apiGood ["h"]).2 = some (Err.http 403) ∧
    (download_folder envRetry403 1 apiGood ["h"]).1.countP (isGetFileOf "uBig") = 1 := by
  exact ⟨by decide, by decide⟩

/-- C1 (amended): a file whose fetch fails with status 403 or 404 is not
retried and produces no warning list: the exception propagates at once,
the whole run aborts with that HTTP error, the file's URL was requested
exactly once, and no alternate-service machinery ran. -/
theorem c1_amended_no_retry (env : Env) (fuel : Nat) (api_url : String) (dir : LocalPath)
    (item : Item) (rest : List Item) (fu owner repo : String) (s : Nat) (mb : Option String)
    (hl : env.listing api_url = Resp.ok (item :: rest))
    (hp3 : (pySplit api_url '/').get? 3 = some owner)
    (hp4 : (pySplit api_url '/').get? 4 = some repo)
    (hm : env.metadata (repoInfoUrl owner repo) = Resp.ok mb)
    (hov : (env.driveMapAt dir).lookup item.name = none)
    (hty : item.type = "file") (hdu : item.download_url = some fu) (hne : fu ≠ "")
    (hs : s = 403 ∨ s = 404)
    (hf : env.fetch fu = Resp.httpErr s) :
    (download_folder env (fuel + 1) api_url dir).2 = some (Err.http s) ∧
    (download_folder env (fuel + 1) api_url dir).1.countP (isGetFileOf fu) = 1 ∧
    (download_folder env (fuel + 1) api_url dir).1.countP isGdown = 0 := by
  have key : download_folder env (fuel + 1) api_url dir =
      ([Effect.mkdirP dir, Effect.getListing api_url,
        Effect.getRepoInfo (repoInfoUrl owner repo),
        Effect.printMsg (PrintTag.downloadingFile fu (dir ++ [item.name])),
        Effect.mkdirP (dir ++ [item.name]).dropLast,
        Effect.getFile fu], some (Err.http s)) := by
    unfold download_folder get_default_branch processItems processItem processItemGithub
    simp only [hl, hp3, hp4, hm, hov, hty]
    simp [hdu, hne, hf]
  rw [key]
  refine ⟨rfl, ?_, ?_⟩ <;>
    simp [List.countP_cons, isGetFileOf, isGdown]

/-- Witness for C1 (amended) at a concrete input: the 403-failing file of
`envRetry403` aborts the run after a single attempt. -/
theorem c1_amended_no_retry_witness :
    (download_folder envRetry403 (0 + 1) apiGood ["h"]).2 = some (Err.http 403) ∧
    (download_folder envRetry403 (0 + 1) apiGood ["h"]).1.countP (isGetFileOf "uBig") = 1 ∧
    (download_folder envRetry403 (0 + 1) apiGood ["h"]).1.countP isGdown = 0 :=
  c1_amended_no_retry envRetry403 0 apiGood ["h"] itemBig [] "uBig" "repos" "o" 403
    (some "main") (by decide) (by decide) (by decide) rfl rfl rfl rfl (by decide)
    (Or.inl rfl) rfl

/-- C2 (counterexample): a file whose Primary fetch returns Git LFS
pointer-text bytes is written to the cache verbatim: the run succeeds,
the pointer text is the (only) content written for the file, exactly one
fetch of its URL happens (no re-fetch from any raw-large-object URL), and
no failure is logged for it. -/
theorem c2_counterexample :
    download_folder envPointer 1 apiGood ["h"] =
      ([Effect.mkdirP ["h"], Effect.getListing apiGood,
        Effect.getRepoInfo "https://api.github.com/repos/repos/o",
        Effect.printMsg (PrintTag.downloadingFile "uBig" ["h", "big.bin"]),
        Effect.mkdirP ["h"], Effect.getFile "uBig",
        Effect.write ["h", "big.bin"] ptrContent, Effect.sleep], none) ∧
    Effect.write ["h", "big.bin"] ptrContent ∈ (download_folder envPointer 1 apiGood ["h"]).1 ∧
    (download_folder envPointer 1 apiGood ["h"]).1.countP (isGetFileOf "uBig") = 1 ∧
    (download_folder envPointer 1 apiGood ["h"]).1.countP isDriveErrorMsg = 0 := by
  exact ⟨by decide, by decide, by decide, by decide⟩

/-- C2 (amended): bytes fetched from the Primary backend are written to
the cache verbatim even when they begin with the Git LFS magic header:
there is no pointer detection, no re-fetch from a raw-large-object URL
(the file URL is requested exactly once) and no logged failure; the
iteration succeeds.  (The code's own docstring states Git LFS is not
handled; large files are expected to be mapped in `drive_map.json`.) -/
theorem c2_amended_pointer_written_verbatim (env : Env)
    (dlRec : String → LocalPath → Trace × Option Err)
    (dm : List (String × String)) (dir : LocalPath) (item : Item) (fu content : String)
    (hov : dm.lookup item.name = none) (hty : item.type = "file")
    (hdu : item.download_url = some fu) (hne : fu ≠ "")
    (hf : env.fetch fu = Resp.ok content)
    (hptr : lfsMagic.toList.isPrefixOf content.toList = true) :
    processItem env dlRec dm dir item =
      ([Effect.printMsg (PrintTag.downloadingFile fu (dir ++ [item.name])),
        Effect.mkdirP (dir ++ [item.name]).dropLast,
        Effect.getFile fu,
        Effect.write (dir ++ [item.name]) content,
        Effect.sleep], none) ∧
    (processItem env dlRec dm dir item).1.countP (isGetFileOf fu) = 1 ∧
    (processItem env dlRec dm dir item).1.countP isDriveErrorMsg = 0 := by
  have key : processItem env dlRec dm dir item =
      ([Effect.printMsg (PrintTag.downloadingFile fu (dir ++ [item.name])),
        Effect.mkdirP (dir ++ [item.name]).dropLast,
        Effect.getFile fu,
        Effect.write (dir ++ [item.name]) content,
        Effect.sleep], none) := by
    unfold processItem
    rw [hov]
    unfold processItemGithub
    rw [hty]
    simp [hdu, hne, hf]
  rw [key]
  refine ⟨rfl, ?_, ?_⟩ <;>
    simp [List.countP_cons, isGetFileOf, isDriveErrorMsg]

/-- Witness for C2 (amended) at a concrete input: the pointer-text bytes
of `envPointer` are written verbatim for `big.bin`. -/
theorem c2_amended_pointer_written_verbatim_witness :
    processItem envPointer dlRecTrivial [] ["h"] itemBig =
      ([Effect.printMsg (PrintTag.downloadingFile "uBig" (["h"] ++ [itemBig.name])),
        Effect.mkdirP ((["h"] : LocalPath) ++ [itemBig.name]).dropLast,
        Effect.getFile "uBig",
        Effect.write (["h"] ++ [itemBig.name]) ptrContent,
        Effect.sleep], none) ∧
    (processItem envPointer dlRecTrivial [] ["h"] itemBig).1.countP (isGetFileOf "uBig") = 1 ∧
    (processItem envPointer dlRecTrivial [] ["h"] itemBig).1.countP isDriveErrorMsg = 0 :=
  c2_amended_pointer_written_verbatim envPointer dlRecTrivial [] ["h"] itemBig "uBig"
    ptrContent rfl rfl rfl (by decide) rfl (by decide)

/-- C3 (counterexample): a file fetch failing with HTTP 500 (outside the
spec's retryable set) is not skipped: the exception propagates out of the
tree walk, the run aborts, and the sibling file `b.txt` is never
fetched. -/
theorem c3_counterexample :
    (download_folder envStatus500 1 apiGood ["h"]).2 = some (Err.http 500) ∧
    (download_folder envStatus500 1 apiGood ["h"]).1.countP (isGetFileOf "uB") = 0 := by
  exact ⟨by decide, by decide⟩

/-- C3 (amended): a file fetch failing with any non-2xx status — inside
or outside the retryable set — raises: the loop over entries stops at
that file, any remaining sibling entries are not processed, and the HTTP
error propagates out of the walk. -/
theorem c3_amended_error_propagates (env : Env)
    (dlRec : String → LocalPath → Trace × Option Err)
    (dm : List (String × String)) (dir : LocalPath) (item : Item) (rest : List Item)
    (fu : String) (s : Nat)
    (hov : dm.lookup item.name = none) (hty : item.type = "file")
    (hdu : item.download_url = some fu) (hne : fu ≠ "")
    (hf : env.fetch fu = Resp.httpErr s) :
    processItems env dlRec dm dir (item :: rest) =
      ([Effect.printMsg (PrintTag.downloadingFile fu (dir ++ [item.name])),
        Effect.mkdirP (dir ++ [item.name]).dropLast,
        Effect.getFile fu], some (Err.http s)) := by
  unfold processItems processItem
  rw [hov]
  unfold processItemGithub
  rw [hty]
  simp [hdu, hne, hf]

/-- Witness for C3 (amended) at a concrete input: the 500-failing `a.txt`
aborts the loop before its sibling `b.txt`. -/
theorem c3_amended_error_propagates_witness :
    processItems envStatus500 dlRecTrivial [] ["h"] [itemA, itemB] =
      ([Effect.printMsg (PrintTag.downloadingFile "uA" (["h"] ++ [itemA.name])),
        Effect.mkdirP ((["h"] : LocalPath) ++ [itemA.name]).dropLast,
        Effect.getFile "uA"], some (Err.http 500)) :=
  c3_amended_error_propagates envStatus500 dlRecTrivial [] ["h"] itemA [itemB] "uA" 500
    rfl rfl rfl (by decide) rfl

/-- C5: calling `download_cache_lib_data` with `overwrite = false` while
the cache directory exists (and is a directory) only prints a notice: no
network request and no filesystem mutation happens, for any environment
and any fuel — so a second run after a completed first one is a no-op.
Moreover a first run that found no cache directory creates it (its trace
contains `mkdirP CACHE_DIR`), which is what makes the second run hit the
skip branch. -/
theorem c5_skip_existing_cache (env : Env) (fuel : Nat) :
    download_cache_lib_data env fuel true true false =
      ([Effect.printMsg PrintTag.existingCacheMsg], none) ∧
    (download_cache_lib_data env fuel true true false).1.countP isNetworkEffect = 0 ∧
    (download_cache_lib_data env fuel true true false).1.countP mutatesDisk = 0 ∧
    (∀ wasDir : Bool, Effect.mkdirP (CACHE_DIR env) ∈
      (download_cache_lib_data env fuel false wasDir false).1) := by
  have key : download_cache_lib_data env fuel true true false =
      ([Effect.printMsg PrintTag.existingCacheMsg], none) := by
    unfold download_cache_lib_data
    simp
  refine ⟨key, by rw [key]; rfl, by rw [key]; rfl, ?_⟩
  intro wasDir
  unfold download_cache_lib_data
  cases hr : (download_github_with_drive_map env fuel MODELS_DIR_API_URL
      (MODELS_DIR_LOCAL env)).2 <;>
    simp [hr, List.mem_append]

/-- C6 (counterexample): a run over a root directory with one
subdirectory performs two repository-metadata requests (one per directory
visited), not one. -/
theorem c6_counterexample :
    countRepoInfo (download_folder envTwoDirs 2 apiGood ["h"]).1 = 2 := by decide

/-- C6 (amended): the default branch is resolved once per directory
visit, not once per sync run: every call of the folder walker whose
listing succeeds (with a well-formed API URL and a metadata response)
performs exactly one metadata request of its own plus those performed
while processing its items; a `file`-typed item contributes none, and a
`dir`-typed item without override contributes exactly the requests of its
own recursive walk.  Nothing is cached across calls. -/
theorem c6_amended_once_per_directory (env : Env) (fuel : Nat) (api_url : String)
    (dir : LocalPath) (items : List Item) (owner repo : String) (mb : Option String)
    (hl : env.listing api_url = Resp.ok items)
    (hp3 : (pySplit api_url '/').get? 3 = some owner)
    (hp4 : (pySplit api_url '/').get? 4 = some repo)
    (hm : env.metadata (repoInfoUrl owner repo) = Resp.ok mb) :
    countRepoInfo (download_folder env (fuel + 1) api_url dir).1 =
      1 + countRepoInfo (processItems env (download_folder env fuel)
            (env.driveMapAt dir) dir items).1 ∧
    (∀ dlRec dm d2 item, item.type = "file" →
      countRepoInfo (processItem env dlRec dm d2 item).1 = 0) ∧
    (∀ dlRec dm d2 item, item.type = "dir" → dm.lookup item.name = none →
      countRepoInfo (processItem env dlRec dm d2 item).1 =
        countRepoInfo (dlRec item.url (d2 ++ [item.name])).1) := by
  refine ⟨?_, ?_, ?_⟩
  · unfold download_folder get_default_branch
    simp only [hl, hp3, hp4, hm]
    unfold countRepoInfo
    simp [List.countP_append, List.countP_cons, isRepoInfoGet]
    omega
  · intro dlRec dm d2 item hty
    unfold processItem
    cases hlk : dm.lookup item.name with
    | none =>
      simp only [hlk]
      exact github_countP_repoInfo env dlRec d2 item hty
    | some u =>
      simp only [hlk]
      by_cases hd : is_google_drive_url u = true
      · simp only [hd, if_true]
        exact drive_countP_repoInfo env u (d2 ++ [item.name])
      · simp only [hd, if_false]
        exact github_countP_repoInfo env dlRec d2 item hty
  · intro dlRec dm d2 item hty hov
    unfold processItem
    simp only [hov]
    unfold processItemGithub
    rw [hty]
    simp

/-- Witness for C6 (amended) at a concrete input: the two-directory
environment, with the per-item facts instantiated on `a.txt` and `sub`. -/
theorem c6_amended_once_per_directory_witness :
    countRepoInfo (download_folder envTwoDirs (1 + 1) apiGood ["h"]).1 =
      1 + countRepoInfo (processItems envTwoDirs (download_folder envTwoDirs 1)
            (envTwoDirs.driveMapAt ["h"]) ["h"] [itemSub]).1 ∧
    countRepoInfo (processItem envTwoDirs dlRecTrivial [] ["h"] itemA).1 = 0 ∧
    countRepoInfo (processItem envTwoDirs dlRecTrivial [] ["h"] itemSub).1 =
      countRepoInfo (dlRecTrivial itemSub.url (["h"] ++ [itemSub.name])).1 := by
  have h := c6_amended_once_per_directory envTwoDirs 1 apiGood ["h"] [itemSub]
    "repos" "o" (some "main") (by decide) (by decide) (by decide) rfl
  exact ⟨h.1, h.2.1 dlRecTrivial [] ["h"] itemA rfl, h.2.2 dlRecTrivial [] ["h"] itemSub rfl rfl⟩

-- ======================================================================
-- SafeFrom lemmas (directory creation precedes file placement)
-- ======================================================================

theorem updSeen_subset {s1 s2 : List LocalPath} (e : Effect) (h : s1 ⊆ s2) :
    updSeen s1 e ⊆ updSeen s2 e := by
  cases e <;> simp only [updSeen] <;> first
    | exact h
    | exact List.cons_subset_cons _ h

theorem subset_updSeen (s : List LocalPath) (e : Effect) : s ⊆ updSeen s e := by
  cases e <;> simp only [updSeen] <;> first
    | exact fun _ h => h
    | exact List.subset_cons_self _ _

theorem safeFrom_mono : ∀ {tr : Trace} {s1 s2 : List LocalPath},
    s1 ⊆ s2 → SafeFrom s1 tr → SafeFrom s2 tr := by
  intro tr
  induction tr with
  | nil => intro s1 s2 _ _; exact SafeFrom.nil s2
  | cons e rest ih =>
    intro s1 s2 h hs
    cases hs with
    | cons hhead htail =>
      exact SafeFrom.cons (fun p hp => h (hhead p hp)) (ih (updSeen_subset e h) htail)

theorem safeFrom_append : ∀ {t1 t2 : Trace} {s : List LocalPath},
    SafeFrom s t1 → SafeFrom s t2 → SafeFrom s (t1 ++ t2) := by
  intro t1
  induction t1 with
  | nil => intro t2 s _ h2; exact h2
  | cons e rest ih =>
    intro t2 s h1 h2
    cases h1 with
    | cons hhead htail =>
      exact SafeFrom.cons hhead (ih htail (safeFrom_mono (subset_updSeen s e) h2))

theorem safe_cons_none {s : List LocalPath} {tr : Trace} {e : Effect}
    (h : fileTarget e = none) (ht : SafeFrom (updSeen s e) tr) : SafeFrom s (e :: tr) :=
  SafeFrom.cons (fun p hp => by rw [h] at hp; cases hp) ht

theorem safe_cons_target {s : List LocalPath} {tr : Trace} {p : LocalPath} {e : Effect}
    (h : fileTarget e = some p) (hm : p.dropLast ∈ s)
    (ht : SafeFrom (updSeen s e) tr) : SafeFrom s (e :: tr) :=
  SafeFrom.cons (fun q hq => by rw [h] at hq; cases hq; exact hm) ht

/-- The Drive download path creates the destination's parent directories
before invoking gdown. -/
theorem safe_drive (env : Env) (u : String) (p : LocalPath) (s : List LocalPath) :
    SafeFrom s (download_from_google_drive env u p) := by
  unfold download_from_google_drive
  dsimp only
  split
  · split
    · exact safe_cons_none (by rfl) (safe_cons_none (by rfl) (safe_cons_target (by rfl)
        (List.mem_cons_self _ _) (safe_cons_none (by rfl) (SafeFrom.nil _))))
    · exact safe_cons_none (by rfl) (safe_cons_none (by rfl) (safe_cons_target (by rfl)
        (List.mem_cons_self _ _) (safe_cons_none (by rfl) (safe_cons_none (by rfl) (SafeFrom.nil _)))))
  · by_cases hg : env.gdownFileOk
        (match extract_drive_file_id u with
          | none => u
          | some str => if str = "" then u else str) = true
    · rw [if_pos hg]
      exact safe_cons_none (by rfl) (safe_cons_none (by rfl) (safe_cons_target (by rfl)
        (List.mem_cons_self _ _) (safe_cons_none (by rfl) (SafeFrom.nil _))))
    · rw [if_neg hg]
      exact safe_cons_none (by rfl) (safe_cons_none (by rfl) (safe_cons_target (by rfl)
        (List.mem_cons_self _ _) (safe_cons_none (by rfl) (safe_cons_none (by rfl) (SafeFrom.nil _)))))

/-- The GitHub file branch creates the file's parent directories before
writing its bytes; the dir branch inherits safety from the recursion. -/
theorem safe_processItemGithub (env : Env) (dlRec : String → LocalPath → Trace × Option Err)
    (dir : LocalPath) (item : Item) (s : List LocalPath)
    (hrec : ∀ u d s2, SafeFrom s2 (dlRec u d).1) :
    SafeFrom s (processItemGithub env dlRec dir item).1 := by
  unfold processItemGithub
  by_cases hty : item.type = "file"
  · rw [if_pos hty]
    cases hdu : item.download_url with
    | none => exact safe_cons_none (by rfl) (SafeFrom.nil _)
    | some fu =>
      dsimp only
      by_cases hne : fu = ""
      · rw [if_pos hne]
        exact safe_cons_none (by rfl) (SafeFrom.nil _)
      · rw [if_neg hne]
        cases hf : env.fetch fu with
        | httpErr st =>
          exact safe_cons_none (by rfl) (safe_cons_none (by rfl) (safe_cons_none (by rfl) (SafeFrom.nil _)))
        | exc =>
          exact safe_cons_none (by rfl) (safe_cons_none (by rfl) (safe_cons_none (by rfl) (SafeFrom.nil _)))
        | ok content =>
          exact safe_cons_none (by rfl) (safe_cons_none (by rfl) (safe_cons_none (by rfl)
            (safe_cons_target (by rfl) (List.mem_cons_self _ _)
              (safe_cons_none (by rfl) (SafeFrom.nil _)))))
  · rw [if_neg hty]
    by_cases hd : item.type = "dir"
    · rw [if_pos hd]; exact hrec _ _ _
    · rw [if_neg hd]; exact SafeFrom.nil _

theorem safe_processItem (env : Env) (dlRec : String → LocalPath → Trace × Option Err)
    (dm : List (String × String)) (dir : LocalPath) (item : Item) (s : List LocalPath)
    (hrec : ∀ u d s2, SafeFrom s2 (dlRec u d).1) :
    SafeFrom s (processItem env dlRec dm dir item).1 := by
  unfold processItem
  cases hlk : dm.lookup item.name with
  | none => exact safe_processItemGithub env dlRec dir item s hrec
  | some u =>
    dsimp only
    by_cases hd : is_google_drive_url u = true
    · rw [if_pos hd]
      exact safe_drive env u (dir ++ [item.name]) s
    · rw [if_neg hd]
      exact safe_processItemGithub env dlRec dir item s hrec

theorem safe_processItems (env : Env) (dlRec : String → LocalPath → Trace × Option Err)
    (dm : List (String × String)) (dir : LocalPath)
    (hrec : ∀ u d s2, SafeFrom s2 (dlRec u d).1) :
    ∀ (items : List Item) (s : List LocalPath),
      SafeFrom s (processItems env dlRec dm dir items).1 := by
  intro items
  induction items with
  | nil => intro s; exact SafeFrom.nil _
  | cons item rest ih =>
    intro s
    unfold processItems
    rcases hp : processItem env dlRec dm dir item with ⟨t, e⟩
    have hst : SafeFrom s t := by
      have h := safe_processItem env dlRec dm dir item s hrec
      rw [hp] at h
      exact h
    cases e with
    | some err => simp only [hp]; exact hst
    | none =>
      simp only [hp]
      exact safeFrom_append hst (ih s)

theorem safe_download_folder (env : Env) :
    ∀ (fuel : Nat) (api_url : String) (dir : LocalPath) (s : List LocalPath),
      SafeFrom s (download_folder env fuel api_url dir).1 := by
  intro fuel
  induction fuel with
  | zero => intro api dir s; exact SafeFrom.nil _
  | succ n ih =>
    intro api dir s
    unfold download_folder get_default_branch
    cases hl : env.listing api with
    | httpErr st => exact safe_cons_none (by rfl) (safe_cons_none (by rfl) (SafeFrom.nil _))
    | exc => exact safe_cons_none (by rfl) (safe_cons_none (by rfl) (SafeFrom.nil _))
    | ok items =>
      dsimp only
      cases hp3 : (pySplit api '/').get? 3 with
      | none =>
        cases hp4 : (pySplit api '/').get? 4 <;>
          exact safe_cons_none (by rfl) (safe_cons_none (by rfl) (SafeFrom.nil _))
      | some owner =>
        cases hp4 : (pySplit api '/').get? 4 with
        | none => exact safe_cons_none (by rfl) (safe_cons_none (by rfl) (SafeFrom.nil _))
        | some repo =>
          dsimp only
          cases hm : env.metadata (repoInfoUrl owner repo) with
          | ok j =>
            exact safeFrom_append
              (safeFrom_append
                (safe_cons_none (by rfl) (safe_cons_none (by rfl) (SafeFrom.nil _)))
                (safe_cons_none (by rfl) (SafeFrom.nil _)))
              (safe_processItems env (download_folder env n) (env.driveMapAt dir) dir
                (fun u d s2 => ih u d s2) items s)
          | httpErr st =>
            exact safeFrom_append
              (safe_cons_none (by rfl) (safe_cons_none (by rfl) (SafeFrom.nil _)))
              (safe_cons_none (by rfl) (SafeFrom.nil _))
          | exc =>
            exact safeFrom_append
              (safe_cons_none (by rfl) (safe_cons_none (by rfl) (SafeFrom.nil _)))
              (safe_cons_none (by rfl) (SafeFrom.nil _))

/-- C8: in every sync run, every effect that places file content at a
local path — a byte write on the Primary path, or a gdown invocation on
the alternate-service path — is preceded in the run's action sequence by
`mkdirP` of that path's parent directory (`mkdir(parents=True,
exist_ok=True)`, which idempotently creates every directory on the local
path), at every level of the recursive walk. -/
theorem c8_dirs_before_writes (env : Env) (fuel : Nat) (api_url : String)
    (local_dir : LocalPath) :
    SafeFrom [] (download_github_with_drive_map env fuel api_url local_dir).1 :=
  safe_download_folder env fuel api_url local_dir []

-- ======================================================================
-- Congruence lemmas (claim C10)
-- ======================================================================

theorem drive_congr (e1 e2 : Env) (u : String) (p : LocalPath)
    (hg1 : e1.gdownFileOk = e2.gdownFileOk) (hg2 : e1.gdownFolderOk = e2.gdownFolderOk) :
    download_from_google_drive e1 u p = download_from_google_drive e2 u p := by
  unfold download_from_google_drive
  rw [hg1, hg2]

theorem processItemGithub_congr (e1 e2 : Env)
    (dl1 dl2 : String → LocalPath → Trace × Option Err) (dir : LocalPath) (item : Item)
    (hf : e1.fetch = e2.fetch) (hdl : ∀ u d, dl1 u d = dl2 u d) :
    processItemGithub e1 dl1 dir item = processItemGithub e2 dl2 dir item := by
  unfold processItemGithub
  simp only [hf, hdl]

theorem processItem_congr (e1 e2 : Env)
    (dl1 dl2 : String → LocalPath → Trace × Option Err)
    (dm : List (String × String)) (dir : LocalPath) (item : Item)
    (hf : e1.fetch = e2.fetch)
    (hg1 : e1.gdownFileOk = e2.gdownFileOk) (hg2 : e1.gdownFolderOk = e2.gdownFolderOk)
    (hdl : ∀ u d, dl1 u d = dl2 u d) :
    processItem e1 dl1 dm dir item = processItem e2 dl2 dm dir item := by
  unfold processItem
  cases hlk : dm.lookup item.name with
  | none => exact processItemGithub_congr e1 e2 dl1 dl2 dir item hf hdl
  | some u =>
    dsimp only
    by_cases hd : is_google_drive_url u = true
    · rw [if_pos hd, if_pos hd, drive_congr e1 e2 u (dir ++ [item.name]) hg1 hg2]
    · rw [if_neg hd, if_neg hd]
      exact processItemGithub_congr e1 e2 dl1 dl2 dir item hf hdl

theorem processItems_congr (e1 e2 : Env)
    (dl1 dl2 : String → LocalPath → Trace × Option Err)
    (dm : List (String × String)) (dir : LocalPath)
    (hf : e1.fetch = e2.fetch)
    (hg1 : e1.gdownFileOk = e2.gdownFileOk) (hg2 : e1.gdownFolderOk = e2.gdownFolderOk)
    (hdl : ∀ u d, dl1 u d = dl2 u d) :
    ∀ items : List Item,
      processItems e1 dl1 dm dir items = processItems e2 dl2 dm dir items := by
  intro items
  induction items with
  | nil => rfl
  | cons item rest ih =>
    unfold processItems
    rw [processItem_congr e1 e2 dl1 dl2 dm dir item hf hg1 hg2 hdl]
    rcases hp : processItem e2 dl2 dm dir item with ⟨t, e⟩
    cases e with
    | some err => rfl
    | none => simp only [ih]

/-- C10: the value of the `default_branch` field returned by the
repository-metadata request has no influence on the run: two runs whose
environments differ only in that value (both metadata requests
succeeding) perform identical action sequences — the same URLs fetched,
the same bytes written to the same local paths — and end identically,
because the resolved branch name is never used after being computed. -/
theorem c10_branch_irrelevant (env : Env) (b1 b2 : Option String) :
    ∀ (fuel : Nat) (api_url : String) (dir : LocalPath),
      download_folder { env with metadata := fun _ => Resp.ok b1 } fuel api_url dir =
      download_folder { env with metadata := fun _ => Resp.ok b2 } fuel api_url dir := by
  intro fuel
  induction fuel with
  | zero => intro api dir; rfl
  | succ n ih =>
    intro api dir
    unfold download_folder get_default_branch
    dsimp only
    cases hl : env.listing api with
    | httpErr st => rfl
    | exc => rfl
    | ok items =>
      dsimp only
      cases hp3 : (pySplit api '/').get? 3 with
      | none => cases hp4 : (pySplit api '/').get? 4 <;> rfl
      | some owner =>
        cases hp4 : (pySplit api '/').get? 4 with
        | none => rfl
        | some repo =>
          dsimp only
          rw [processItems_congr { env with metadata := fun _ => Resp.ok b1 }
            { env with metadata := fun _ => Resp.ok b2 }
            (download_folder { env with metadata := fun _ => Resp.ok b1 } n)
            (download_folder { env with metadata := fun _ => Resp.ok b2 } n)
            (env.driveMapAt dir) dir rfl rfl rfl ih items]

end BnnCache
